import Mathlib

/-
  Shallow embedding of tcp-connection-hijack-reset-dst.py: connection
  resolver, packet filter, interception state machine and reset
  synthesizer, with the ipset call sequence of main.
-/

namespace TCPReset

/-! ## Endpoint resolver (get_endpoints, get_endpoints_by_port) -/

/-- A raw endpoint as parsed from a /proc/net/tcp line: the address as the
hex-parsed host-order integer, and the port. -/
abbrev RawEP := Nat × Nat

/-- One data row of the connection table: local and remote raw endpoints. -/
structure ConnRow where
  ep_local : RawEP
  ep_remote : RawEP
deriving DecidableEq, Repr

/-- A decoded endpoint: dotted-quad address string and port. -/
abbrev Endpoint := String × Nat

/-- Python truthiness of an optional port argument: None and 0 are falsy. -/
def truthyPort : Option Nat → Bool
  | none => false
  | some n => n != 0

/-- The row match of get_endpoints_by_port: the local port equals port_local,
or the remote port equals port_remote; comparison with an absent argument is
false (Python compares an int against None). -/
def row_match (port_local port_remote : Option Nat) (row : ConnRow) : Bool :=
  decide (port_local = some row.ep_local.2) || decide (port_remote = some row.ep_remote.2)

/-- get_endpoints_by_port: yield (local, remote) raw endpoint pairs of the
rows whose ports match the criteria. -/
def get_endpoints_by_port (port_local port_remote : Option Nat)
    (table : List ConnRow) : List (RawEP × RawEP) :=
  (table.filter (row_match port_local port_remote)).map
    (fun row => (row.ep_local, row.ep_remote))

/-- inet_ntoa(struct.pack('<I', n & 0xffffffff)): repack the host-order
integer little-endian and print the four bytes as a dotted quad. -/
def inet_ntoa_le (n0 : Nat) : String :=
  let n := n0 % 4294967296
  toString (n % 256) ++ "." ++ toString (n / 256 % 256) ++ "."
    ++ toString (n / 65536 % 256) ++ "." ++ toString (n / 16777216 % 256)

/-- Decode one raw endpoint into (dotted quad, port), as done on the
matches[0] row by get_endpoints. -/
def decode_ep (ep : RawEP) : Endpoint := (inet_ntoa_le ep.1, ep.2)

/-- Errors raised by get_endpoints. -/
inductive ConnError
  | connNotFound
  | connMultipleMatches (candidates : List (RawEP × RawEP))
deriving DecidableEq, Repr

/-- get_endpoints for the port-based criteria: no match raises ConnNotFound,
more than one raises ConnMultipleMatches carrying all matches, exactly one
returns the decoded (local, remote) pair. -/
def get_endpoints (port_local port_remote : Option Nat)
    (table : List ConnRow) : Except ConnError (Endpoint × Endpoint) :=
  match get_endpoints_by_port port_local port_remote table with
  | [] => .error .connNotFound
  | [m] => .ok (decode_ep m.1, decode_ep m.2)
  | ms => .error (.connMultipleMatches ms)

/-! ## Packet filter and reset synthesizer -/

/-- The fields of a captured TCP/IP packet that the tool reads. -/
structure Pkt where
  src : String
  dst : String
  sport : Nat
  dport : Nat
  seq : Nat
  ack : Nat
  window : Nat
deriving DecidableEq, Repr

/-- TCPBreaker.pkt_filter: accept iff the unordered port set of the packet
equals the unordered target port set, and resolve the remote address as the
destination IP when the source port is the local port, else the source IP;
a non-match raises KeyError, modelled as none. -/
def pkt_filter (port_local port_remote : Nat) (p : Pkt) : Option String :=
  if ({p.sport, p.dport} : Finset Nat) = {port_local, port_remote} then
    some (if p.sport = port_local then p.dst else p.src)
  else none

/-- The forged segment built by st_rst_send. -/
structure RstSeg where
  src : String
  dst : String
  sport : Nat
  dport : Nat
  seq : Nat
  ack : Nat
  window : Nat
  flags : String
deriving DecidableEq, Repr

/-- The IP(...)/TCP(...) construction of st_rst_send before the ack is
zeroed: pkt_dir is (pkt_ip.dst == self.ss_remote), and each ordered(...)
pair keeps its values when pkt_dir holds and swaps them otherwise. -/
def st_rst_build (p : Pkt) (ss_remote : Option String) : RstSeg :=
  let pkt_dir : Bool := match ss_remote with
    | some r => p.dst == r
    | none => false
  { src := if pkt_dir then p.src else p.dst
    dst := if pkt_dir then p.dst else p.src
    sport := if pkt_dir then p.sport else p.dport
    dport := if pkt_dir then p.dport else p.sport
    seq := if pkt_dir then p.seq else p.ack
    ack := if pkt_dir then p.ack else p.seq
    window := p.window
    flags := "R" }

/-- st_rst_send on a captured packet: build the oriented segment, then
overwrite the acknowledgment with 0 (rst[TCP].ack = 0). -/
def st_rst_send_pkt (p : Pkt) (ss_remote : Option String) : RstSeg :=
  { st_rst_build p ss_remote with ack := 0 }

/-- The reverse-direction counterpart of a segment of the same logical
connection: endpoints and ports swapped, seq and ack exchanged, same
window. -/
def mirror_seg (p : Pkt) : Pkt :=
  { src := p.dst, dst := p.src, sport := p.dport, dport := p.sport
    seq := p.ack, ack := p.seq, window := p.window }

/-- Whether a scapy flag string contains a given flag character. -/
def hasFlag (c : Char) (s : String) : Bool := s.toList.contains c

/-! ## Interception state machine (TCPBreaker) -/

/-- Python truthiness of an optional string: None and the empty string are
falsy. -/
def truthy : Option String → Bool
  | none => false
  | some s => s != ""

/-- The mutable session fields of TCPBreaker. -/
structure Session where
  ss_remote : Option String
  ss_intercept : Option Pkt
deriving DecidableEq, Repr

/-- Waiting states of the automaton: st_seek, or stopped after st_rst_send
ran (which signals the process and stops the machine). st_collect and
st_rst_send are transient and folded into the step function. -/
inductive MState
  | st_seek
  | st_stopped
deriving DecidableEq, Repr

/-- One TCPBreaker instance: waiting state, session fields, target ports and
the ss_timeout (persist) flag. -/
structure Config where
  st : MState
  sess : Session
  port_local : Nat
  port_remote : Nat
  ss_timeout : Bool
deriving DecidableEq, Repr

/-- The action break_link: record the resolved remote only when ss_remote is
falsy (first writer wins). -/
def break_link (sess : Session) (remote : String) : Session :=
  if truthy sess.ss_remote then sess else { sess with ss_remote := some remote }

/-- The state st_collect: unconditionally overwrite ss_intercept with the
triggering packet. -/
def st_collect (sess : Session) (p : Pkt) : Session :=
  { sess with ss_intercept := some p }

/-- The guard of the timeout handler interception_done:
self.ss_remote and self.ss_intercept are both truthy. -/
def interception_done (sess : Session) : Bool :=
  truthy sess.ss_remote && sess.ss_intercept.isSome

/-- st_rst_send reads the stored intercept; with no stored packet the read
of None would fail, modelled as none. -/
def st_rst_send (sess : Session) : Option RstSeg :=
  sess.ss_intercept.map (fun p => st_rst_send_pkt p sess.ss_remote)

/-- Events delivered to the automaton: a captured packet, or the st_seek
timeout firing. -/
inductive Event
  | packet (p : Pkt)
  | timer
deriving DecidableEq, Repr

/-- One automaton step: returns the next configuration and the list of
forged segments sent during the step. In st_seek a packet runs
check_packet (pkt_filter), then break_link, then st_collect, which jumps to
st_rst_send when ss_timeout is unset and back to st_seek otherwise; the
timer jumps to st_rst_send when interception_done holds. st_rst_send sends
the forged segment and stops the machine. -/
def step (cfg : Config) (ev : Event) : Config × List RstSeg :=
  match cfg.st with
  | .st_stopped => (cfg, [])
  | .st_seek =>
    match ev with
    | .timer =>
      if interception_done cfg.sess then
        ({ cfg with st := .st_stopped }, (st_rst_send cfg.sess).toList)
      else (cfg, [])
    | .packet p =>
      match pkt_filter cfg.port_local cfg.port_remote p with
      | none => (cfg, [])
      | some remote =>
        let sess := st_collect (break_link cfg.sess remote) p
        if cfg.ss_timeout then ({ cfg with sess := sess }, [])
        else ({ cfg with st := .st_stopped, sess := sess }, (st_rst_send sess).toList)

/-- Run the automaton over a list of delivered events, collecting every
forged segment sent. -/
def run (cfg : Config) : List Event → Config × List RstSeg
  | [] => (cfg, [])
  | ev :: evs =>
    let s1 := step cfg ev
    let s2 := run s1.1 evs
    (s2.1, s1.2 ++ s2.2)

/-! ## main: the ipset call sequence around the automaton run -/

/-- Observable actions of main around the automaton: an ipset command
invocation, or the automaton run itself (with its outcome). -/
inductive MainEvent
  | ipset_call (cmd : String) (name : String) (ip : String) (port : Nat)
  | run_machine (ok : Bool)
deriving DecidableEq, Repr

/-- ipset_update: no call is made when no set name was given, otherwise one
ipset command with the given ip and port. -/
def ipset_update (cmd : String) (name : Option String) (ip : String) (port : Nat) :
    List MainEvent :=
  match name with
  | none => []
  | some n => [.ipset_call cmd n ip port]

/-- The call sequence of main around TCPBreaker.run: ipset_update with
'add' and the REMOTE endpoint before the run, then the run, then (in the
finally clause, so regardless of the run outcome) ipset_update with 'del'
and the LOCAL endpoint. -/
def main_ipset_seq (name : Option String) (ep_local ep_remote : Endpoint)
    (ok : Bool) : List MainEvent :=
  ipset_update "add" name ep_remote.1 ep_remote.2
    ++ [.run_machine ok]
    ++ ipset_update "del" name ep_local.1 ep_local.2


/-! ## Fixtures of the end-to-end scenario -/

/-- The captured local-to-remote packet of the end-to-end scenario:
sport=4000, dport=80, seq=1000, ack=2000, window=64. -/
def pkt_fwd : Pkt := ⟨"10.0.0.5", "93.184.216.34", 4000, 80, 1000, 2000, 64⟩

/-- A fresh TCPBreaker for ports (4000, 80) with ss_timeout unset. -/
def cfg_start : Config := ⟨.st_seek, ⟨none, none⟩, 4000, 80, false⟩

end TCPReset

deriving instance DecidableEq for Except

namespace TCPReset

/-! ## Theorems -/

/-- C1: for every captured segment and resolved remote address, st_rst_send
produces one segment whose addresses and ports keep their orientation when
the captured segment traveled local-to-remote (its destination IP equals
the resolved remote) and are swapped otherwise, whose sequence number is
the captured seq in the first case and the captured ack in the second,
whose window is copied unchanged, whose only flag is RST, and whose
acknowledgment field is zero independent of the captured ack. -/
theorem C1_reset_synthesis (p : Pkt) (remote : String) :
    (st_rst_send_pkt p (some remote)).src = (if p.dst = remote then p.src else p.dst)
  ∧ (st_rst_send_pkt p (some remote)).dst = (if p.dst = remote then p.dst else p.src)
  ∧ (st_rst_send_pkt p (some remote)).sport = (if p.dst = remote then p.sport else p.dport)
  ∧ (st_rst_send_pkt p (some remote)).dport = (if p.dst = remote then p.dport else p.sport)
  ∧ (st_rst_send_pkt p (some remote)).seq = (if p.dst = remote then p.seq else p.ack)
  ∧ (st_rst_send_pkt p (some remote)).ack = 0
  ∧ (st_rst_send_pkt p (some remote)).window = p.window
  ∧ (st_rst_send_pkt p (some remote)).flags = "R"
  ∧ hasFlag 'R' (st_rst_send_pkt p (some remote)).flags = true
  ∧ hasFlag 'A' (st_rst_send_pkt p (some remote)).flags = false := by
  by_cases h : p.dst = remote <;>
    simp [st_rst_send_pkt, st_rst_build, h, hasFlag]

/-- C2: reset synthesis is direction-invariant: a captured segment observed
local-to-remote and the corresponding segment of the same logical
connection observed remote-to-local (endpoints and ports swapped, seq and
ack exchanged, same window) produce identical forged segments, with
acknowledgment 0, RST set and ACK unset. -/
theorem C2_direction_invariance (p : Pkt) (remote : String)
    (hfwd : p.dst = remote) (hrev : p.src ≠ remote) :
    st_rst_send_pkt (mirror_seg p) (some remote) = st_rst_send_pkt p (some remote)
  ∧ (st_rst_send_pkt (mirror_seg p) (some remote)).ack = 0
  ∧ hasFlag 'R' (st_rst_send_pkt (mirror_seg p) (some remote)).flags = true
  ∧ hasFlag 'A' (st_rst_send_pkt (mirror_seg p) (some remote)).flags = false := by
  refine ⟨?_, rfl, rfl, rfl⟩
  simp [st_rst_send_pkt, st_rst_build, mirror_seg, hfwd, hrev]

/-- Witness for C2 at the packet of the end-to-end scenario of the spec. -/
theorem C2_direction_invariance_witness :
    st_rst_send_pkt (mirror_seg ⟨"10.0.0.5", "93.184.216.34", 4000, 80, 1000, 2000, 64⟩)
        (some "93.184.216.34")
      = st_rst_send_pkt ⟨"10.0.0.5", "93.184.216.34", 4000, 80, 1000, 2000, 64⟩
        (some "93.184.216.34")
  ∧ (st_rst_send_pkt (mirror_seg ⟨"10.0.0.5", "93.184.216.34", 4000, 80, 1000, 2000, 64⟩)
        (some "93.184.216.34")).ack = 0
  ∧ hasFlag 'R' (st_rst_send_pkt
        (mirror_seg ⟨"10.0.0.5", "93.184.216.34", 4000, 80, 1000, 2000, 64⟩)
        (some "93.184.216.34")).flags = true
  ∧ hasFlag 'A' (st_rst_send_pkt
        (mirror_seg ⟨"10.0.0.5", "93.184.216.34", 4000, 80, 1000, 2000, 64⟩)
        (some "93.184.216.34")).flags = false :=
  C2_direction_invariance ⟨"10.0.0.5", "93.184.216.34", 4000, 80, 1000, 2000, 64⟩
    "93.184.216.34" rfl (by decide)


/-- C3: the resolver returns a connection exactly when the table yields
exactly one match for the given criterion: zero matches raise ConnNotFound,
more than one raises ConnMultipleMatches carrying all candidate matches,
and exactly one match returns that row decoded. The hypothesis is the
assert of get_endpoints_by_port: at least one port criterion is truthy. -/
theorem C3_resolver_match_count (pl pr : Option Nat) (table : List ConnRow)
    (_hcrit : truthyPort pl = true ∨ truthyPort pr = true) :
    (get_endpoints_by_port pl pr table = [] →
        get_endpoints pl pr table = .error .connNotFound)
  ∧ (1 < (get_endpoints_by_port pl pr table).length →
        get_endpoints pl pr table
          = .error (.connMultipleMatches (get_endpoints_by_port pl pr table)))
  ∧ (∀ m, get_endpoints_by_port pl pr table = [m] →
        get_endpoints pl pr table = .ok (decode_ep m.1, decode_ep m.2))
  ∧ ((∃ c, get_endpoints pl pr table = .ok c)
        ↔ (get_endpoints_by_port pl pr table).length = 1) := by
  rcases h : get_endpoints_by_port pl pr table with _ | ⟨m, _ | ⟨m2, tl⟩⟩ <;>
    simp [get_endpoints, h]

/-- Witness for C3: a two-row table with two matches on local port 4000
raises ConnMultipleMatches carrying both candidates. -/
theorem C3_resolver_match_count_witness :
    get_endpoints (some 4000) none
      [⟨(83886090, 4000), (584628317, 80)⟩, ⟨(83886090, 4000), (16777343, 8080)⟩]
      = .error (.connMultipleMatches
          [((83886090, 4000), (584628317, 80)), ((83886090, 4000), (16777343, 8080))]) := by
  have h := C3_resolver_match_count (some 4000) none
    [⟨(83886090, 4000), (584628317, 80)⟩, ⟨(83886090, 4000), (16777343, 8080)⟩]
    (Or.inl (by decide))
  exact (h.2.1 (by decide)).trans (by decide)

/-- C4: with exactly one matching row the resolver returns that row, each
address decoded from its hex host-order integer by little-endian repacking
into a dotted quad. -/
theorem C4_resolver_single_match (pl pr : Option Nat) (table : List ConnRow)
    (m : RawEP × RawEP)
    (_hcrit : truthyPort pl = true ∨ truthyPort pr = true)
    (hms : get_endpoints_by_port pl pr table = [m]) :
    get_endpoints pl pr table
      = .ok ((inet_ntoa_le m.1.1, m.1.2), (inet_ntoa_le m.2.1, m.2.2)) := by
  simp [get_endpoints, hms, decode_ep]

/-- Witness for C4, the end-to-end fixture of the spec: one row
local=10.0.0.5:4000 (hex host-order 0x0500000A), remote=93.184.216.34:80
(hex host-order 0x22D8B85D), queried with local port 4000. -/
theorem C4_resolver_single_match_witness :
    get_endpoints (some 4000) none [⟨(83886090, 4000), (584628317, 80)⟩]
      = .ok (("10.0.0.5", 4000), ("93.184.216.34", 80)) := by
  have h := C4_resolver_single_match (some 4000) none
    [⟨(83886090, 4000), (584628317, 80)⟩] ((83886090, 4000), (584628317, 80))
    (Or.inl (by decide)) (by decide)
  exact h.trans (by decide)

/-- C5: the segment filter accepts a packet iff its unordered port set
equals the unordered target port set; an accepted packet resolves the
remote as its destination IP when its source port is the local port and as
its source IP otherwise; hence for distinct target ports, a packet with
(sport=L, dport=R) and one with (sport=R, dport=L) are both accepted, the
remote resolved from opposite fields of the two packets, and the resolved
remotes differ whenever those fields hold different addresses. -/
theorem C5_segment_filter (L R : Nat) (p p1 p2 : Pkt)
    (hLR : L ≠ R)
    (h1s : p1.sport = L) (h1d : p1.dport = R)
    (h2s : p2.sport = R) (h2d : p2.dport = L) :
    ((pkt_filter L R p).isSome = true ↔ ({p.sport, p.dport} : Finset Nat) = {L, R})
  ∧ (∀ a, pkt_filter L R p = some a → a = (if p.sport = L then p.dst else p.src))
  ∧ pkt_filter L R p1 = some p1.dst
  ∧ pkt_filter L R p2 = some p2.src
  ∧ (p1.dst ≠ p2.src → pkt_filter L R p1 ≠ pkt_filter L R p2) := by
  refine ⟨?_, ?_, ?_, ?_, ?_⟩
  · by_cases hset : ({p.sport, p.dport} : Finset Nat) = {L, R} <;>
      simp [pkt_filter, hset]
  · by_cases hset : ({p.sport, p.dport} : Finset Nat) = {L, R} <;>
      simp [pkt_filter, hset]
  · simp [pkt_filter, h1s, h1d]
  · have hset : ({p2.sport, p2.dport} : Finset Nat) = {L, R} := by
      rw [h2s, h2d]; exact Finset.pair_comm R L
    have hne : ¬ p2.sport = L := by rw [h2s]; exact fun hh => hLR hh.symm
    simp [pkt_filter, hset, hne]
  · intro hdiff
    have e1 : pkt_filter L R p1 = some p1.dst := by simp [pkt_filter, h1s, h1d]
    have hset : ({p2.sport, p2.dport} : Finset Nat) = {L, R} := by
      rw [h2s, h2d]; exact Finset.pair_comm R L
    have hne : ¬ p2.sport = L := by rw [h2s]; exact fun hh => hLR hh.symm
    have e2 : pkt_filter L R p2 = some p2.src := by simp [pkt_filter, hset, hne]
    rw [e1, e2]
    exact fun hh => hdiff (Option.some.inj hh)

/-- Witness for C5: target ports (4000, 80), a forward packet and a reverse
packet of the end-to-end scenario. -/
theorem C5_segment_filter_witness :
    ((pkt_filter 4000 80 ⟨"10.0.0.5", "93.184.216.34", 4000, 80, 1000, 2000, 64⟩).isSome = true
      ↔ ({4000, 80} : Finset Nat) = {4000, 80})
  ∧ (∀ a, pkt_filter 4000 80 ⟨"10.0.0.5", "93.184.216.34", 4000, 80, 1000, 2000, 64⟩ = some a →
        a = (if 4000 = 4000 then "93.184.216.34" else "10.0.0.5"))
  ∧ pkt_filter 4000 80 ⟨"10.0.0.5", "93.184.216.34", 4000, 80, 1000, 2000, 64⟩
      = some "93.184.216.34"
  ∧ pkt_filter 4000 80 ⟨"93.184.216.34", "10.0.0.5", 80, 4000, 2000, 1000, 64⟩
      = some "93.184.216.34"
  ∧ ("93.184.216.34" ≠ "93.184.216.34" →
        pkt_filter 4000 80 ⟨"10.0.0.5", "93.184.216.34", 4000, 80, 1000, 2000, 64⟩
          ≠ pkt_filter 4000 80 ⟨"93.184.216.34", "10.0.0.5", 80, 4000, 2000, 1000, 64⟩) :=
  C5_segment_filter 4000 80
    ⟨"10.0.0.5", "93.184.216.34", 4000, 80, 1000, 2000, 64⟩
    ⟨"10.0.0.5", "93.184.216.34", 4000, 80, 1000, 2000, 64⟩
    ⟨"93.184.216.34", "10.0.0.5", 80, 4000, 2000, 1000, 64⟩
    (by decide) rfl rfl rfl rfl


/-- Once the machine has stopped, every further event is ignored: the
configuration is unchanged and nothing is sent. -/
lemma run_stopped (evs : List Event) (cfg : Config)
    (h : cfg.st = .st_stopped) : run cfg evs = (cfg, []) := by
  induction evs with
  | nil => rfl
  | cons ev evs ih =>
    have hstep : step cfg ev = (cfg, []) := by
      obtain ⟨st, sess, PL, PR, tmo⟩ := cfg
      cases h
      rfl
    simp [run, hstep, ih]

/-- A run in which every single step leaves the configuration unchanged and
sends nothing does so as a whole. -/
lemma run_of_step_id (cfg : Config) (evs : List Event)
    (h : ∀ ev ∈ evs, step cfg ev = (cfg, [])) : run cfg evs = (cfg, []) := by
  induction evs with
  | nil => rfl
  | cons ev evs ih =>
    have h1 : step cfg ev = (cfg, []) := h ev (List.mem_cons_self ev evs)
    have h2 : run cfg evs = (cfg, []) := ih (fun e he => h e (List.mem_cons_of_mem ev he))
    simp [run, h1, h2]

/-- C6: a matching packet in st_seek enters st_collect, which overwrites the
stored intercept with the triggering packet unconditionally; with the
ss_timeout (persist) flag unset the machine goes straight to st_rst_send,
sending exactly one forged segment and stopping, so any further events send
nothing and leave it stopped; with the flag set it returns to st_seek
sending nothing. -/
theorem C6_collect_transition (cfg : Config) (p : Pkt) (remote : String)
    (evs : List Event)
    (hst : cfg.st = .st_seek)
    (hmatch : pkt_filter cfg.port_local cfg.port_remote p = some remote) :
    (step cfg (.packet p)).1.sess.ss_intercept = some p
  ∧ (cfg.ss_timeout = false →
      (step cfg (.packet p)).1.st = .st_stopped
        ∧ (step cfg (.packet p)).2.length = 1
        ∧ run (step cfg (.packet p)).1 evs = ((step cfg (.packet p)).1, []))
  ∧ (cfg.ss_timeout = true →
      (step cfg (.packet p)).1.st = .st_seek ∧ (step cfg (.packet p)).2 = []) := by
  obtain ⟨st, sess, PL, PR, tmo⟩ := cfg
  cases hst
  cases tmo <;>
    simp [step, hmatch, st_collect, st_rst_send, run_stopped]

/-- C7: in st_seek a timer fire moves the machine to st_rst_send iff both
the resolved remote and a captured segment are present (the session holding
no empty-string address, which Python treats as falsy); if either is
missing the timer changes nothing; and a run of non-matching packets and
timer fires with the session incomplete leaves the machine in st_seek
having sent nothing. -/
theorem C7_seek_timer (cfg : Config) (evs : List Event)
    (hst : cfg.st = .st_seek)
    (hgood : ∀ s, cfg.sess.ss_remote = some s → s ≠ "") :
    ((step cfg .timer).1.st = .st_stopped
        ↔ (cfg.sess.ss_remote.isSome = true ∧ cfg.sess.ss_intercept.isSome = true))
  ∧ (¬ (cfg.sess.ss_remote.isSome = true ∧ cfg.sess.ss_intercept.isSome = true) →
      step cfg .timer = (cfg, []))
  ∧ (¬ (cfg.sess.ss_remote.isSome = true ∧ cfg.sess.ss_intercept.isSome = true) →
      (∀ p, Event.packet p ∈ evs → pkt_filter cfg.port_local cfg.port_remote p = none) →
      run cfg evs = (cfg, [])) := by
  obtain ⟨st, ⟨rem, icept⟩, PL, PR, tmo⟩ := cfg
  cases hst
  have htr : truthy rem = rem.isSome := by
    cases rem with
    | none => rfl
    | some s =>
      have hs : s ≠ "" := hgood s rfl
      simp [truthy, hs]
  have hdone : interception_done ⟨rem, icept⟩ = (rem.isSome && icept.isSome) := by
    simp [interception_done, htr]
  have hfalse : ∀ (hm : ¬ (rem.isSome = true ∧ icept.isSome = true)),
      (rem.isSome && icept.isSome) = false := by
    intro hm
    rw [Bool.eq_false_iff]
    intro h
    exact hm (by simpa [Bool.and_eq_true] using h)
  refine ⟨?_, ?_, ?_⟩
  · constructor
    · intro hstop
      by_contra hmiss
      have hf := hfalse hmiss
      simp [step, hdone, hf] at hstop
    · rintro ⟨h1, h2⟩
      simp [step, hdone, h1, h2]
  · intro hmiss
    have hf := hfalse hmiss
    simp [step, hdone, hf]
  · intro hmiss hnomatch
    have hf := hfalse hmiss
    apply run_of_step_id
    intro ev hev
    cases ev with
    | timer => simp [step, hdone, hf]
    | packet p => simp [step, hnomatch p hev]


/-- Witness for C6: from a fresh non-persist session the forward packet is
stored, the machine stops having sent one segment, and two further events
change nothing. -/
theorem C6_collect_transition_witness :
    (step cfg_start (.packet pkt_fwd)).1.sess.ss_intercept = some pkt_fwd
  ∧ (step cfg_start (.packet pkt_fwd)).1.st = .st_stopped
  ∧ (step cfg_start (.packet pkt_fwd)).2.length = 1
  ∧ run (step cfg_start (.packet pkt_fwd)).1 [.packet pkt_fwd, .timer]
      = ((step cfg_start (.packet pkt_fwd)).1, []) := by
  have h := C6_collect_transition cfg_start pkt_fwd "93.184.216.34"
    [.packet pkt_fwd, .timer] rfl (by decide)
  exact ⟨h.1, (h.2.1 rfl).1, (h.2.1 rfl).2.1, (h.2.1 rfl).2.2⟩

/-- Witness for C7: on a fresh session a timer fire changes nothing, and a
timer followed by a non-matching packet leaves the machine seeking with
nothing sent. -/
theorem C7_seek_timer_witness :
    step cfg_start .timer = (cfg_start, [])
  ∧ run cfg_start [.timer, .packet ⟨"1.2.3.4", "5.6.7.8", 1, 2, 0, 0, 0⟩]
      = (cfg_start, []) := by
  have h := C7_seek_timer cfg_start [.timer, .packet ⟨"1.2.3.4", "5.6.7.8", 1, 2, 0, 0, 0⟩]
    rfl (fun s hs => Option.noConfusion hs)
  refine ⟨h.2.1 (by decide), h.2.2 (by decide) ?_⟩
  intro p hp
  rcases List.mem_cons.mp hp with h1 | h1
  · cases h1
  · rcases List.mem_singleton.mp h1 with h2
    injection h2 with h3
    subst h3
    decide

/-- C8: ss_remote is written at most once: a nonempty resolved remote
already in the session survives every step unchanged, and on a matching
packet in st_seek with no remote recorded yet the resolved remote of that
first packet is recorded. -/
theorem C8_remote_write_once (cfg : Config) (ev : Event) :
    (∀ a, cfg.sess.ss_remote = some a → a ≠ "" →
        (step cfg ev).1.sess.ss_remote = some a)
  ∧ (∀ p r, cfg.st = .st_seek → cfg.sess.ss_remote = none →
        pkt_filter cfg.port_local cfg.port_remote p = some r →
        (step cfg (.packet p)).1.sess.ss_remote = some r) := by
  obtain ⟨st, ⟨rem, icept⟩, PL, PR, tmo⟩ := cfg
  constructor
  · intro a ha hne
    have ha2 : rem = some a := ha
    subst ha2
    cases st with
    | st_stopped => simp [step]
    | st_seek =>
      cases ev with
      | timer =>
        by_cases hd : interception_done ⟨some a, icept⟩ <;> simp [step, hd]
      | packet p =>
        cases hf : pkt_filter PL PR p with
        | none => simp [step, hf]
        | some r =>
          have hbr : truthy (some a) = true := by simp [truthy, hne]
          cases tmo <;> simp [step, hf, st_collect, break_link, hbr]
  · intro p r hstt hrem hpf
    have hstt2 : st = .st_seek := hstt
    have hrem2 : rem = none := hrem
    subst hstt2
    subst hrem2
    have hpf2 : pkt_filter PL PR p = some r := hpf
    cases tmo <;> simp [step, hpf2, st_collect, break_link, truthy]

/-- Witness for C8: a session that already resolved remote 9.9.9.9 keeps it
across a matching packet that resolves a different remote, and a fresh
session records the first matching packet's resolved remote. -/
theorem C8_remote_write_once_witness :
    (step ⟨.st_seek, ⟨some "9.9.9.9", none⟩, 4000, 80, true⟩
        (.packet pkt_fwd)).1.sess.ss_remote = some "9.9.9.9"
  ∧ (step cfg_start (.packet pkt_fwd)).1.sess.ss_remote = some "93.184.216.34" :=
  ⟨(C8_remote_write_once ⟨.st_seek, ⟨some "9.9.9.9", none⟩, 4000, 80, true⟩
      (.packet pkt_fwd)).1 "9.9.9.9" rfl (by decide),
   (C8_remote_write_once cfg_start (.packet pkt_fwd)).2 pkt_fwd "93.184.216.34"
      rfl rfl (by decide)⟩

/-- C9 behavior at a concrete invocation: the single add command issued
before the automaton runs carries the REMOTE endpoint 93.184.216.34:80,
while the del command issued after the run (in the finally clause, here
after a failed run) carries the LOCAL endpoint 10.0.0.5:4000. -/
theorem C9_ipset_call_sequence :
    main_ipset_seq (some "blocked") ("10.0.0.5", 4000) ("93.184.216.34", 80) false
      = [.ipset_call "add" "blocked" "93.184.216.34" 80,
         .run_machine false,
         .ipset_call "del" "blocked" "10.0.0.5" 4000] := rfl

/-- C10: whenever a step taken in st_seek stops the machine (both the timer
path and the collect path), the resulting session holds a resolved remote
and a captured segment, and exactly one forged segment was sent, so
st_rst_send never read a missing snapshot. -/
theorem C10_terminate_fields_present (cfg : Config) (ev : Event)
    (hst : cfg.st = .st_seek)
    (hstop : (step cfg ev).1.st = .st_stopped) :
    (step cfg ev).1.sess.ss_remote.isSome = true
  ∧ (step cfg ev).1.sess.ss_intercept.isSome = true
  ∧ (step cfg ev).2.length = 1 := by
  obtain ⟨st, ⟨rem, icept⟩, PL, PR, tmo⟩ := cfg
  cases hst
  cases ev with
  | timer =>
    by_cases hd : interception_done ⟨rem, icept⟩
    · have h1 : truthy rem = true ∧ icept.isSome = true := by
        simpa [interception_done, Bool.and_eq_true] using hd
      have hr : rem.isSome = true := by
        cases rem with
        | none => exact absurd h1.1 (by decide)
        | some s => rfl
      obtain ⟨q, hq⟩ := Option.isSome_iff_exists.mp h1.2
      subst hq
      simp [step, hd, st_rst_send, hr]
    · simp [step, hd] at hstop
  | packet p =>
    cases hf : pkt_filter PL PR p with
    | none => simp [step, hf] at hstop
    | some r =>
      cases tmo with
      | true => simp [step, hf] at hstop
      | false =>
        by_cases hbr : truthy rem
        · have hr : rem.isSome = true := by
            cases rem with
            | none => exact absurd hbr (by decide)
            | some s => rfl
          simp [step, hf, st_collect, break_link, hbr, st_rst_send, hr]
        · simp [step, hf, st_collect, break_link, hbr, st_rst_send]

/-- Witness for C10: the collect path at the fresh non-persist session. -/
theorem C10_terminate_fields_present_witness :
    (step cfg_start (.packet pkt_fwd)).1.sess.ss_remote.isSome = true
  ∧ (step cfg_start (.packet pkt_fwd)).1.sess.ss_intercept.isSome = true
  ∧ (step cfg_start (.packet pkt_fwd)).2.length = 1 :=
  C10_terminate_fields_present cfg_start (.packet pkt_fwd) rfl (by decide)

end TCPReset
